import Mathlib

/-!
Verification development for the `AnsysXMLConverter` transformation core
(`src/index.py`): numeric normalization (`clean_numeric`), version
resolution (`version_map`), material-block construction
(`build_material_block`), and document assembly (`convert`).

Modelling conventions:
* Python floats are modelled exactly as rationals (constructor
  `PyFloat.finite`), plus `inf`/`-inf`/`nan` for the special values that
  `float(str)` can produce.  IEEE-754 rounding and overflow of parsed
  literals are not modelled; values are kept exact.
* A pandas cell (the argument of `clean_numeric`) is `Cell`: missing/NaN
  (`Cell.na`, detected by `pd.isna`), a text cell (`Cell.str`), or a
  numeric cell (`Cell.num`).
* Strings are manipulated at the `List Char` level: `str.strip()` is
  `trimChars`, the single-character `str.replace` calls of
  `clean_numeric` are `pyCleanChars`, and `float(str)` is
  `pyFloatOfChars` (ASCII digits; underscores between digits; optional
  sign; optional fraction and exponent; `inf`/`infinity`/`nan`
  keywords; surrounding whitespace ignored; the whole string must be
  consumed).
-/

/-- Result of Python's `float(...)`: an exact finite value or one of the
special IEEE values that the string conversion can yield. -/
inductive PyFloat where
  | finite (q : ℚ)
  | inf
  | neginf
  | nan
deriving DecidableEq, Repr

/-- One pandas cell as seen by `clean_numeric` in `src/index.py`:
missing/NaN (`pd.isna(value)` true), a string, or a number. -/
inductive Cell where
  | na
  | str (s : String)
  | num (q : ℚ)
deriving DecidableEq, Repr

/-- Numeric value of an ASCII digit character. -/
def dval (c : Char) : ℕ := c.toNat - 48

/-- Strip leading and trailing whitespace from a character list (models
Python's `str.strip()` / the whitespace skipping of `float(str)`). -/
def trimChars (cs : List Char) : List Char :=
  ((cs.dropWhile Char.isWhitespace).reverse.dropWhile Char.isWhitespace).reverse

/-- Continue a digit run: consume further digits, allowing a single
underscore between two digits (Python numeric-literal underscores).
Returns the digit values consumed and the unconsumed rest. -/
def digitRunCont : List Char → List ℕ × List Char
  | [] => ([], [])
  | [c] => if c.isDigit then ([dval c], []) else ([], [c])
  | c :: c2 :: rest =>
    if c.isDigit then
      let p := digitRunCont (c2 :: rest)
      (dval c :: p.1, p.2)
    else if c = '_' ∧ c2.isDigit then
      let p := digitRunCont rest
      (dval c2 :: p.1, p.2)
    else ([], c :: c2 :: rest)

/-- A digit run: a leading digit followed by `digitRunCont`.  Returns
`([], input)` when the input does not start with a digit. -/
def digitRun : List Char → List ℕ × List Char
  | [] => ([], [])
  | c :: rest =>
    if c.isDigit then
      let p := digitRunCont rest
      (dval c :: p.1, p.2)
    else ([], c :: rest)

/-- Value of a most-significant-first digit list. -/
def natOfDigits (ds : List ℕ) : ℕ := ds.foldl (fun a d => 10 * a + d) 0

/-- Optional exponent part `e`/`E`, optional sign, digit run.  When no
well-formed exponent is present nothing is consumed (the leftover then
fails the whole-string-consumption check of `parseUnsigned`). -/
def expPart (cs : List Char) : ℤ × List Char :=
  match cs with
  | [] => (0, [])
  | c :: r =>
    if c = 'e' ∨ c = 'E' then
      match r with
      | [] => (0, c :: r)
      | s :: r2 =>
        if s = '+' then
          let p := digitRun r2
          if p.1 = [] then (0, c :: r) else ((natOfDigits p.1 : ℤ), p.2)
        else if s = '-' then
          let p := digitRun r2
          if p.1 = [] then (0, c :: r) else (-(natOfDigits p.1 : ℤ), p.2)
        else
          let p := digitRun r
          if p.1 = [] then (0, c :: r) else ((natOfDigits p.1 : ℤ), p.2)
    else (0, c :: r)

/-- Unsigned float grammar of `float(str)`: integer digits, optional
`.` and fraction digits (at least one digit overall), optional
exponent; the whole input must be consumed. -/
def parseUnsigned (cs : List Char) : Option ℚ :=
  let ipr := digitRun cs
  let f :=
    match ipr.2 with
    | '.' :: r => digitRun r
    | _ => (([] : List ℕ), ipr.2)
  if ipr.1 = [] ∧ f.1 = [] then none
  else
    let e := expPart f.2
    if e.2 = [] then
      some (((natOfDigits ipr.1 : ℚ) + (natOfDigits f.1 : ℚ) / (10 : ℚ) ^ f.1.length)
        * (10 : ℚ) ^ e.1)
    else none

/-- Body of `float(str)` after the optional sign: the numeric grammar,
or else the case-insensitive `inf`/`infinity`/`nan` keywords (the two
acceptance classes are disjoint, so trying the grammar first is
observationally the same as CPython's combined grammar). -/
def parseAfterSign (neg : Bool) (cs : List Char) : Option PyFloat :=
  match parseUnsigned cs with
  | some q => some (PyFloat.finite (if neg then -q else q))
  | none =>
    let l := cs.map Char.toLower
    if l = ['i', 'n', 'f'] ∨ l = ['i', 'n', 'f', 'i', 'n', 'i', 't', 'y'] then
      some (if neg then PyFloat.neginf else PyFloat.inf)
    else if l = ['n', 'a', 'n'] then some PyFloat.nan
    else none

/-- Python's `float(str)` on a character list: strip whitespace,
optional sign, then `parseAfterSign`.  `none` models `ValueError`. -/
def pyFloatOfChars (cs0 : List Char) : Option PyFloat :=
  match trimChars cs0 with
  | [] => none
  | c :: r =>
    if c = '+' then parseAfterSign false r
    else if c = '-' then parseAfterSign true r
    else parseAfterSign false (c :: r)

/-- The string cleanup of `clean_numeric`:
`value.replace('"', '').replace(',', '.')` — both patterns are single
characters, so the two `str.replace` calls are a filter and a map. -/
def pyCleanChars (cs : List Char) : List Char :=
  (cs.filter (fun c => !(c == '"'))).map (fun c => if c = ',' then '.' else c)

/-- `clean_numeric` from `src/index.py`: missing/NaN or empty string
give `0.0`; a string is quote-stripped, comma-to-point replaced,
trimmed and parsed, with `0.0` on `ValueError`; a number is coerced by
`float(value)` (the identity on the modelled numeric cells). -/
def clean_numeric (v : Cell) : PyFloat :=
  match v with
  | Cell.na => PyFloat.finite 0
  | Cell.str s =>
    if s = "" then PyFloat.finite 0
    else
      match pyFloatOfChars (trimChars (pyCleanChars s.data)) with
      | some x => x
      | none => PyFloat.finite 0
  | Cell.num q => PyFloat.finite q

/-- `self.version_map` from `src/index.py` (insertion order kept). -/
def version_map : List (String × String) :=
  [("2024 R1", "24.1.0.0"),
   ("2024 R2", "24.2.0.0"),
   ("2025 R1", "25.1.0.0"),
   ("2025 R2", "25.2.0.233")]

/-- `self.version_map.get(ui_version, "25.2.0.233")`. -/
def resolve_version (ui_version : String) : String :=
  (List.lookup ui_version version_map).getD "25.2.0.233"

/-- `str.strip()`. -/
def pyStrip (s : String) : String := String.mk (trimChars s.data)

/-- `str.capitalize()`: first character upper-cased, the rest
lower-cased (for the ASCII letters that occur in `Type` values). -/
def pyCapitalize (s : String) : String :=
  match s.data with
  | [] => ""
  | c :: cs => String.mk (c.toUpper :: cs.map Char.toLower)

/-- Smallest `k < 400` with `d ∣ 10^k`, if any: the number of decimal
digits needed to write `1/d` exactly. -/
def decExp (d : ℕ) : Option ℕ :=
  (List.range 400).find? (fun k => 10 ^ k % d == 0)

/-- Fractional digit block of Python's `repr`: `fp` written with `k`
digits (leading zeros restored), trailing zeros trimmed, but at least
one digit. -/
def fracStr (fp k : ℕ) : String :=
  let ds := Nat.repr fp
  let padded := List.replicate (k - ds.length) '0' ++ ds.data
  let trimmed := (padded.reverse.dropWhile (fun c => c == '0')).reverse
  if trimmed = [] then "0" else String.mk trimmed

/-- Python's `str(float)` as used by the f-strings of
`build_material_block`, for the regime Python prints in positional
notation (`1e-4 ≤ |x| < 1e16`, where every value of this converter
lives): sign, integer digits, point, fraction digits.  The
scientific-notation regime and the impossible case of a
non-terminating decimal are not modelled beyond a placeholder. -/
def pyFloatRepr (x : PyFloat) : String :=
  match x with
  | PyFloat.inf => "inf"
  | PyFloat.neginf => "-inf"
  | PyFloat.nan => "nan"
  | PyFloat.finite q =>
    let sgn := if q < 0 then "-" else ""
    let n := q.num.natAbs
    let d := q.den
    match decExp d with
    | some k =>
      let scaled := n * 10 ^ k / d
      sgn ++ Nat.repr (scaled / 10 ^ k) ++ "." ++ fracStr (scaled % 10 ^ k) k
    | none => sgn ++ Nat.repr n ++ "div" ++ Nat.repr d

/-- One `block += ...` fragment of `build_material_block`: a fixed
literal line, the `<Name>`/`<Description>` lines, a standalone
`<Qualifier>` line, or a `<ParameterValue>` line in string or float
format (the latter always carries one qualifier in the source). -/
inductive Frag where
  | lit (s : String)
  | nameTag (s : String)
  | descTag (s : String)
  | qual (nm v : String)
  | paramS (i data : String) (q : Option (String × String))
  | paramF (i : String) (v : PyFloat) (q : String × String)
deriving DecidableEq, Repr

/-- Text of one fragment, exactly the template literals of the source. -/
def render : Frag → String
  | Frag.lit s => s
  | Frag.nameTag s => "          <Name>" ++ s ++ "</Name>\n"
  | Frag.descTag s => "          <Description>" ++ s ++ "</Description>\n"
  | Frag.qual nm v =>
    "            <Qualifier name=\"" ++ nm ++ "\">" ++ v ++ "</Qualifier>\n"
  | Frag.paramS i data q =>
    "            <ParameterValue parameter=\"" ++ i ++ "\" format=\"string\"><Data>"
      ++ data ++ "</Data>"
      ++ (match q with
          | some p => "<Qualifier name=\"" ++ p.1 ++ "\">" ++ p.2 ++ "</Qualifier>"
          | none => "")
      ++ "</ParameterValue>\n"
  | Frag.paramF i v q =>
    "            <ParameterValue parameter=\"" ++ i ++ "\" format=\"float\"><Data>"
      ++ pyFloatRepr v ++ "</Data><Qualifier name=\"" ++ q.1 ++ "\">" ++ q.2
      ++ "</Qualifier></ParameterValue>\n"

/-- Concatenated text of a fragment list. -/
def renderBlock (fs : List Frag) : String := String.join (fs.map render)

/-- One input row, with the text cells `Nome`/`Descrição` (field `Descricao`)/`Tipo`
already passed through `str(...)` as in the source, and every numeric
column kept as the raw cell fed to `clean_numeric`. -/
structure Row where
  Nome : String
  Descricao : String
  Tipo : String
  Densidade : Cell
  E_x : Cell
  E_y : Cell
  E_z : Cell
  Poisson_xy : Cell
  Poisson_yz : Cell
  Poisson_xz : Cell
  G_xy : Cell
  G_yz : Cell
  G_xz : Cell
deriving DecidableEq, Repr

/-- `self.ortho_params` from `src/index.py` (dict insertion order). -/
def ortho_params : List (String × String) :=
  [("pa14", "E_x"), ("pa15", "E_y"), ("pa16", "E_z"),
   ("pa17", "Poisson_xy"), ("pa18", "Poisson_yz"), ("pa19", "Poisson_xz"),
   ("pa20", "G_xy"), ("pa21", "G_yz"), ("pa22", "G_xz")]

/-- Dynamic column access `row[col]` as used by the `ortho_params`
loop; only the nine orthotropic column names are ever passed (a
missing column would raise `KeyError` in the source, so the catch-all
is unreachable). -/
def getCol (row : Row) (c : String) : Cell :=
  match c with
  | "E_x" => row.E_x
  | "E_y" => row.E_y
  | "E_z" => row.E_z
  | "Poisson_xy" => row.Poisson_xy
  | "Poisson_yz" => row.Poisson_yz
  | "Poisson_xz" => row.Poisson_xz
  | "G_xy" => row.G_xy
  | "G_yz" => row.G_yz
  | "G_xz" => row.G_xz
  | _ => Cell.na

/-- The qualifier attached to every float parameter value. -/
def dependent_qual : String × String := ("Variable Type", "Dependent")

/-- Lines 78–81 of the source: material open tag, name, description,
fixed class. -/
def identity_section (nome desc : String) : List Frag :=
  [Frag.lit "      <Material>\n        <BulkDetails>\n",
   Frag.nameTag nome,
   Frag.descTag desc,
   Frag.lit "          <Class><Name>Composite</Name></Class>\n"]

/-- Lines 84–88 (`# Propriedade Densidade`): the `pr0` property with
the interpolation-options marker (qualified `AlgorithmType`) and the
density value (qualified `Variable Type: Dependent`). -/
def density_section (dens : PyFloat) : List Frag :=
  [Frag.lit "          <PropertyData property=\"pr0\">\n",
   Frag.lit "            <Data format=\"string\">-</Data>\n",
   Frag.paramS "pa0" "Interpolation Options"
     (some ("AlgorithmType", "Linear Multivariate (Qhull)")),
   Frag.paramF "pa1" dens dependent_qual,
   Frag.lit "          </PropertyData>\n"]

/-- Lines 91–103 (`# Propriedade Elasticidade`): the `pr1` property:
behavior qualifier, marker, then either the isotropic pair (pa2, pa3)
after the derive qualifier, or the nine `ortho_params` values. -/
def elasticity_section (tipo : String) (row : Row) : List Frag :=
  [Frag.lit "          <PropertyData property=\"pr1\">\n",
   Frag.lit "            <Data format=\"string\">-</Data>\n",
   Frag.qual "Behavior" tipo,
   Frag.paramS "pa0" "Interpolation Options" none]
  ++ (if tipo = "Isotropic" then
        [Frag.qual "Derive from" "Young\x27s Modulus and Poisson\x27s Ratio",
         Frag.paramF "pa2" (clean_numeric row.E_x) dependent_qual,
         Frag.paramF "pa3" (clean_numeric row.Poisson_xy) dependent_qual]
      else
        ortho_params.map
          (fun p => Frag.paramF p.1 (clean_numeric (getCol row p.2)) dependent_qual))

/-- Line 105: closes the property, the bulk details and the material. -/
def closing_lit : Frag :=
  Frag.lit "          </PropertyData>\n        </BulkDetails>\n      </Material>\n"

/-- `build_material_block` from `src/index.py`, as its fragment
sequence: identity, density property, elasticity property, closing. -/
def build_material_block (row : Row) : List Frag :=
  identity_section row.Nome row.Descricao
    ++ density_section (clean_numeric row.Densidade)
    ++ elasticity_section (pyCapitalize (pyStrip row.Tipo)) row
    ++ [closing_lit]

/-- `_get_xml_header` from `src/index.py`.  The wall-clock timestamp
`datetime.now().strftime(...)` is passed in as `now` (the spec itself
requires a injectable clock for deterministic comparison). -/
def _get_xml_header (ui_version now : String) : String :=
  "<?xml version=\"1.0\" encoding=\"UTF-8\"?>\n"
  ++ ("<EngineeringData version=\"" ++ resolve_version ui_version
      ++ "\" versiondate=\"" ++ now ++ "\">\n")
  ++ ("  <Notes>Gerado via Streamlit - Versão Ansys " ++ ui_version
      ++ " - Suporta Ortotropia</Notes>\n")
  ++ "  <Materials>\n    <MatML_Doc>\n"

/-- Unit descriptor of a `<ParameterDetails>` entry in the footer. -/
inductive UnitSpec where
  | unitless
  | stress
  | density
deriving DecidableEq, Repr

/-- Literal unit fragments from `_get_xml_footer`. -/
def renderUnits : UnitSpec → String
  | UnitSpec.unitless => "<Unitless/>"
  | UnitSpec.stress => "<Units name=\"Stress\"><Unit><Name>Pa</Name></Unit></Units>"
  | UnitSpec.density =>
    "<Units name=\"Density\"><Unit><Name>kg</Name></Unit><Unit power=\"-3\"><Name>m</Name></Unit></Units>"

/-- One footer catalog entry. -/
structure ParamDetail where
  id : String
  nm : String
  unit : UnitSpec
deriving DecidableEq, Repr

/-- The `<ParameterDetails>` entries of `_get_xml_footer` in emission
order: the four explicit entries pa0–pa3, then the three
`zip(range(...), [...])` loops for pa14–pa22. -/
def footer_param_details : List ParamDetail :=
  [⟨"pa0", "Options Variable", UnitSpec.unitless⟩,
   ⟨"pa1", "Density", UnitSpec.density⟩,
   ⟨"pa2", "Young\x27s Modulus", UnitSpec.stress⟩,
   ⟨"pa3", "Poisson\x27s Ratio", UnitSpec.unitless⟩]
  ++ (List.zip (List.range' 14 3) ["X", "Y", "Z"]).map
      (fun p => ⟨"pa" ++ Nat.repr p.1, "Young\x27s Modulus " ++ p.2 ++ " direction", UnitSpec.stress⟩)
  ++ (List.zip (List.range' 17 3) ["XY", "YZ", "XZ"]).map
      (fun p => ⟨"pa" ++ Nat.repr p.1, "Poisson\x27s Ratio " ++ p.2, UnitSpec.unitless⟩)
  ++ (List.zip (List.range' 20 3) ["XY", "YZ", "XZ"]).map
      (fun p => ⟨"pa" ++ Nat.repr p.1, "Shear Modulus " ++ p.2, UnitSpec.stress⟩)

/-- Rendered `<ParameterDetails>` line. -/
def renderParamDetail (pd : ParamDetail) : String :=
  "        <ParameterDetails id=\"" ++ pd.id ++ "\"><Name>" ++ pd.nm ++ "</Name>"
    ++ renderUnits pd.unit ++ "</ParameterDetails>\n"

/-- The two `<PropertyDetails>` entries of `_get_xml_footer`. -/
def footer_property_details : List (String × String) :=
  [("pr0", "Density"), ("pr1", "Elasticity")]

/-- Rendered `<PropertyDetails>` line. -/
def renderPropDetail (p : String × String) : String :=
  "        <PropertyDetails id=\"" ++ p.1 ++ "\"><Name>" ++ p.2
    ++ "</Name></PropertyDetails>\n"

/-- `_get_xml_footer` from `src/index.py`. -/
def _get_xml_footer : String :=
  "      <Metadata>\n"
  ++ String.join (footer_param_details.map renderParamDetail)
  ++ String.join (footer_property_details.map renderPropDetail)
  ++ "      </Metadata>\n    </MatML_Doc>\n  </Materials>\n</EngineeringData>"

/-- `convert` from `src/index.py`: header, then one material block per
row accumulated in iteration order, then the footer. -/
def convert (df : List Row) (ui_version now : String) : String :=
  (df.foldl (fun acc row => acc ++ renderBlock (build_material_block row))
    (_get_xml_header ui_version now))
  ++ _get_xml_footer

/-- The float `<ParameterValue>` entries of a fragment list, in order:
identifier, value, qualifier. -/
def paramFloats (fs : List Frag) : List (String × PyFloat × (String × String)) :=
  fs.filterMap (fun f =>
    match f with
    | Frag.paramF i v q => some (i, v, q)
    | _ => none)

/-- How many float `<ParameterValue>` entries carry identifier `i`. -/
def countParam (i : String) (fs : List Frag) : ℕ :=
  (paramFloats fs).countP (fun e => e.1 == i)

/-- Identifier and qualifier of every `<ParameterValue>` entry (string
or float format), in order. -/
def paramQuals (fs : List Frag) : List (String × Option (String × String)) :=
  fs.filterMap (fun f =>
    match f with
    | Frag.paramS i _ q => some (i, q)
    | Frag.paramF i _ q => some (i, some q)
    | _ => none)

/-- The `<Name>` payload of a material block. -/
def extractName (fs : List Frag) : Option String :=
  fs.findSome? (fun f =>
    match f with
    | Frag.nameTag s => some s
    | _ => none)

/-- Number of positions of `s` at which `pat` occurs as a substring. -/
def countSub (pat : List Char) : List Char → ℕ
  | [] => if pat = [] then 1 else 0
  | c :: rest => (if pat.isPrefixOf (c :: rest) then 1 else 0) + countSub pat rest

/-! ### Helper lemmas: characters, trimming, cleanup -/

/-- A digit differs from any concrete non-digit character. -/
theorem isDigit_ne {c : Char} (h : c.isDigit = true) {d : Char}
    (hd : d.isDigit = false) : c ≠ d := by
  intro he
  rw [he, hd] at h
  exact Bool.false_ne_true h

/-- Digits are not whitespace. -/
theorem isDigit_not_ws {c : Char} (h : c.isDigit = true) :
    c.isWhitespace = false := by
  cases hws : c.isWhitespace with
  | false => rfl
  | true =>
    exfalso
    have hmem : ((c = ' ' ∨ c = '\t') ∨ c = '\r') ∨ c = '\n' := by
      simpa [Char.isWhitespace, Bool.or_eq_true, decide_eq_true_eq] using hws
    rcases hmem with ((h1 | h1) | h1) | h1 <;> (rw [h1] at h; exact absurd h (by decide))

/-- `dropWhile` is the identity when the predicate fails everywhere. -/
theorem dropWhile_all_false {p : Char → Bool} {l : List Char}
    (h : ∀ c ∈ l, p c = false) : l.dropWhile p = l := by
  cases l with
  | nil => rfl
  | cons a t => simp [List.dropWhile_cons, h a (by simp)]

/-- `trimChars` is the identity on whitespace-free lists. -/
theorem trimChars_eq_self {l : List Char}
    (h : ∀ c ∈ l, c.isWhitespace = false) : trimChars l = l := by
  unfold trimChars
  rw [dropWhile_all_false h, dropWhile_all_false (by simpa using h), List.reverse_reverse]

/-- `map` is the identity when the function fixes every element. -/
theorem map_id_on {f : Char → Char} : ∀ {l : List Char},
    (∀ c ∈ l, f c = c) → l.map f = l
  | [], _ => rfl
  | a :: t, h => by
    rw [List.map_cons, h a (by simp), map_id_on (fun c hc => h c (by simp [hc]))]

/-- `pyCleanChars` fixes quote-free, comma-free lists. -/
theorem pyCleanChars_id {l : List Char}
    (hq : ∀ c ∈ l, c ≠ '"') (hcomma : ∀ c ∈ l, c ≠ ',') :
    pyCleanChars l = l := by
  unfold pyCleanChars
  rw [List.filter_eq_self.mpr (fun a ha => by simpa using hq a ha)]
  exact map_id_on (fun c hc => if_neg (hcomma c hc))

/-! ### Helper lemmas: the digit-run parser -/

/-- Condition under which a digit run stops consuming: end of input or
a head that is neither a digit nor an underscore. -/
def runStops : List Char → Prop
  | [] => True
  | c :: _ => c.isDigit = false ∧ c ≠ '_'

/-- A digit at the head of `digitRunCont` is consumed. -/
theorem digitRunCont_cons_digit {c : Char} (h : c.isDigit = true)
    (cs : List Char) :
    digitRunCont (c :: cs)
      = (dval c :: (digitRunCont cs).1, (digitRunCont cs).2) := by
  cases cs with
  | nil => simp [digitRunCont, h]
  | cons c2 r => simp [digitRunCont, h]

/-- `digitRunCont` consumes nothing when the run stops. -/
theorem digitRunCont_stop {cs : List Char} (h : runStops cs) :
    digitRunCont cs = ([], cs) := by
  match cs with
  | [] => rfl
  | c :: r =>
    obtain ⟨hnd, hnu⟩ := h
    match r with
    | [] => simp [digitRunCont, hnd]
    | c2 :: r2 => simp [digitRunCont, hnd, hnu]

/-- `digitRunCont` maps a digit prefix to its values and leaves the
stopped rest untouched. -/
theorem digitRunCont_append : ∀ {ds : List Char}, (∀ c ∈ ds, c.isDigit = true) →
    ∀ {rest : List Char}, runStops rest →
    digitRunCont (ds ++ rest) = (ds.map dval, rest)
  | [], _, rest, hr => by simpa using digitRunCont_stop hr
  | d :: ds', hds, rest, hr => by
    rw [List.cons_append, digitRunCont_cons_digit (hds d (by simp)),
      digitRunCont_append (fun c hc => hds c (by simp [hc])) hr]
    simp

/-- `digitRun` on a non-empty digit prefix followed by a stopped rest. -/
theorem digitRun_append {ds rest : List Char} (hne : ds ≠ [])
    (hds : ∀ c ∈ ds, c.isDigit = true) (hr : runStops rest) :
    digitRun (ds ++ rest) = (ds.map dval, rest) := by
  cases ds with
  | nil => exact absurd rfl hne
  | cons d ds' =>
    have hrun := @digitRunCont_append ds' (fun c hc => hds c (by simp [hc])) rest hr
    rw [List.cons_append]
    simp [digitRun, hds d (by simp), hrun]

/-- `expPart` on `e+digits`. -/
theorem expPart_plus {C : List Char} (hC : ∀ c ∈ C, c.isDigit = true)
    (hne : C ≠ []) :
    expPart ('e' :: '+' :: C) = ((natOfDigits (C.map dval) : ℤ), []) := by
  have hrun : digitRun C = (C.map dval, []) := by
    simpa using @digitRun_append C [] hne hC trivial
  have hmapne : C.map dval ≠ [] := by simpa using hne
  simp [expPart, hrun, hmapne]

/-- `expPart` on `e-digits`. -/
theorem expPart_minus {C : List Char} (hC : ∀ c ∈ C, c.isDigit = true)
    (hne : C ≠ []) :
    expPart ('e' :: '-' :: C) = (-(natOfDigits (C.map dval) : ℤ), []) := by
  have hrun : digitRun C = (C.map dval, []) := by
    simpa using @digitRun_append C [] hne hC trivial
  have hmapne : C.map dval ≠ [] := by simpa using hne
  simp [expPart, hrun, hmapne]

/-- `parseUnsigned` on the point-form of the claim pattern
`<digits>.<digits>e<sign><digits>`. -/
theorem parseUnsigned_pattern {A B C : List Char} {sg : Char}
    (hA : ∀ c ∈ A, c.isDigit = true) (hB : ∀ c ∈ B, c.isDigit = true)
    (hC : ∀ c ∈ C, c.isDigit = true)
    (hAne : A ≠ []) (hBne : B ≠ []) (hCne : C ≠ [])
    (hsg : sg = '+' ∨ sg = '-') :
    parseUnsigned (A ++ '.' :: (B ++ 'e' :: sg :: C))
      = some (((natOfDigits (A.map dval) : ℚ)
          + (natOfDigits (B.map dval) : ℚ) / (10 : ℚ) ^ (B.map dval).length)
        * (10 : ℚ) ^ (if sg = '+' then (natOfDigits (C.map dval) : ℤ)
            else -(natOfDigits (C.map dval) : ℤ))) := by
  have hstop1 : runStops ('.' :: (B ++ 'e' :: sg :: C)) := by
    constructor <;> decide
  have hstop2 : runStops ('e' :: sg :: C) := by
    constructor <;> decide
  have hrun1 : digitRun (A ++ '.' :: (B ++ 'e' :: sg :: C))
      = (A.map dval, '.' :: (B ++ 'e' :: sg :: C)) := digitRun_append hAne hA hstop1
  have hrun2 : digitRun (B ++ 'e' :: sg :: C) = (B.map dval, 'e' :: sg :: C) :=
    digitRun_append hBne hB hstop2
  have hmapA : A.map dval ≠ [] := by simpa using hAne
  rcases hsg with h | h <;> subst h
  · simp [parseUnsigned, hrun1, hrun2, hmapA, expPart_plus hC hCne]
  · simp [parseUnsigned, hrun1, hrun2, hmapA, expPart_minus hC hCne]

/-- On a digit-headed whitespace-free input, `float(str)` runs the
unsigned grammar directly. -/
theorem pyFloatOfChars_digit_head {c : Char} {r : List Char}
    (hc : c.isDigit = true)
    (hws : ∀ x ∈ c :: r, x.isWhitespace = false) :
    pyFloatOfChars (c :: r) = parseAfterSign false (c :: r) := by
  have ht : trimChars (c :: r) = c :: r := trimChars_eq_self hws
  have hplus : c ≠ '+' := isDigit_ne hc (by decide)
  have hminus : c ≠ '-' := isDigit_ne hc (by decide)
  simp [pyFloatOfChars, ht, hplus, hminus]

/-- `pyCleanChars` on the claim pattern `<digits>,<digits>e<sign><digits>`
followed by trimming: exactly the comma-to-point replacement. -/
theorem cleanChars_pattern {A B C : List Char} {sg : Char}
    (hA : ∀ c ∈ A, c.isDigit = true) (hB : ∀ c ∈ B, c.isDigit = true)
    (hC : ∀ c ∈ C, c.isDigit = true) (hsg : sg = '+' ∨ sg = '-') :
    trimChars (pyCleanChars (A ++ ',' :: (B ++ 'e' :: sg :: C)))
      = A ++ '.' :: (B ++ 'e' :: sg :: C) := by
  have hsgq : sg ≠ '"' := by rcases hsg with h | h <;> (subst h; decide)
  have hsgc : sg ≠ ',' := by rcases hsg with h | h <;> (subst h; decide)
  have hsgw : sg.isWhitespace = false := by rcases hsg with h | h <;> (subst h; decide)
  have hfilter : List.filter (fun c => !(c == '"')) (A ++ ',' :: (B ++ 'e' :: sg :: C))
      = A ++ ',' :: (B ++ 'e' :: sg :: C) := by
    apply List.filter_eq_self.mpr
    intro a ha
    have hane : a ≠ '"' := by
      simp only [List.mem_append, List.mem_cons] at ha
      rcases ha with h | h | h | h | h | h
      · exact isDigit_ne (hA a h) (by decide)
      · subst h; decide
      · exact isDigit_ne (hB a h) (by decide)
      · subst h; decide
      · subst h; exact hsgq
      · exact isDigit_ne (hC a h) (by decide)
    simpa using hane
  have hmap : List.map (fun c => if c = ',' then '.' else c)
        (A ++ ',' :: (B ++ 'e' :: sg :: C))
      = A ++ '.' :: (B ++ 'e' :: sg :: C) := by
    rw [List.map_append, List.map_cons, List.map_append, List.map_cons, List.map_cons]
    rw [map_id_on (fun c hc => if_neg (isDigit_ne (hA c hc) (by decide)))]
    rw [map_id_on (fun c hc => if_neg (isDigit_ne (hB c hc) (by decide)))]
    rw [map_id_on (fun c hc => if_neg (isDigit_ne (hC c hc) (by decide)))]
    simp [hsgc]
  unfold pyCleanChars
  rw [hfilter, hmap]
  apply trimChars_eq_self
  intro c hc
  simp only [List.mem_append, List.mem_cons] at hc
  rcases hc with h | h | h | h | h | h
  · exact isDigit_not_ws (hA c h)
  · subst h; decide
  · exact isDigit_not_ws (hB c h)
  · subst h; decide
  · subst h; exact hsgw
  · exact isDigit_not_ws (hC c h)

/-! ### Helper lemmas: string concatenation and document assembly -/

/-- `foldl` of append against a start string. -/
theorem strFoldl (l : List String) : ∀ a : String,
    l.foldl (· ++ ·) a = a ++ l.foldl (· ++ ·) "" := by
  induction l with
  | nil => intro a; simp [List.foldl]
  | cons s t ih =>
    intro a
    simp only [List.foldl]
    rw [ih (a ++ s), ih ("" ++ s), String.empty_append, String.append_assoc]

/-- `String.join` on a cons. -/
theorem join_cons (s : String) (l : List String) :
    String.join (s :: l) = s ++ String.join l := by
  show (s :: l).foldl (· ++ ·) "" = s ++ l.foldl (· ++ ·) ""
  simp only [List.foldl]
  rw [strFoldl l ("" ++ s), String.empty_append]

/-- `String.join` on an append. -/
theorem join_append (a b : List String) :
    String.join (a ++ b) = String.join a ++ String.join b := by
  induction a with
  | nil =>
    rw [List.nil_append]
    exact (String.empty_append (String.join b)).symm
  | cons s t ih =>
    rw [List.cons_append, join_cons, join_cons, ih, String.append_assoc]

/-- `renderBlock` distributes over fragment-list concatenation. -/
theorem renderBlock_append (a b : List Frag) :
    renderBlock (a ++ b) = renderBlock a ++ renderBlock b := by
  unfold renderBlock
  rw [List.map_append, join_append]

/-- `foldl` accumulation of one string per row equals the joined map. -/
theorem foldl_blocks (f : Row → String) : ∀ (t : List Row) (a : String),
    t.foldl (fun acc row => acc ++ f row) a = a ++ String.join (t.map f)
  | [], a => by
    rw [List.map_nil]
    exact (String.append_empty a).symm
  | r :: t, a => by
    rw [List.foldl_cons, foldl_blocks f t (a ++ f r), List.map_cons, join_cons,
      String.append_assoc]

/-- `convert` is the header, the joined blocks in row order, the footer. -/
theorem convert_eq_join (df : List Row) (ver now : String) :
    convert df ver now
      = _get_xml_header ver now
        ++ String.join (df.map (fun r => renderBlock (build_material_block r)))
        ++ _get_xml_footer := by
  unfold convert
  rw [foldl_blocks (fun r => renderBlock (build_material_block r)) df
    (_get_xml_header ver now)]

/-- `clean_numeric` is the identity embedding on numeric cells. -/
@[simp] theorem clean_numeric_num (q : ℚ) :
    clean_numeric (Cell.num q) = PyFloat.finite q := rfl

/-- The float parameter values of a material block: density first, then
the type-dependent elasticity values. -/
theorem paramFloats_build (row : Row) :
    paramFloats (build_material_block row)
      = ("pa1", clean_numeric row.Densidade, dependent_qual)
        :: (if pyCapitalize (pyStrip row.Tipo) = "Isotropic" then
              [("pa2", clean_numeric row.E_x, dependent_qual),
               ("pa3", clean_numeric row.Poisson_xy, dependent_qual)]
            else ortho_params.map
              (fun p => (p.1, clean_numeric (getCol row p.2), dependent_qual))) := by
  unfold build_material_block identity_section density_section elasticity_section
    closing_lit paramFloats
  by_cases h : pyCapitalize (pyStrip row.Tipo) = "Isotropic"
  · simp [h, List.filterMap_append, List.filterMap_cons]
  · simp [h, ortho_params, List.filterMap_append, List.filterMap_cons]

/-- The first two parameter entries of every block: the density-block
marker with its `AlgorithmType` qualifier, then the density value with
the dependent tag. -/
theorem paramQuals_build_take (row : Row) :
    (paramQuals (build_material_block row)).take 2
      = [("pa0", some ("AlgorithmType", "Linear Multivariate (Qhull)")),
         ("pa1", some dependent_qual)] := by
  unfold build_material_block identity_section density_section paramQuals
  simp [List.filterMap_append, List.filterMap_cons]

/-- Every material block's `<Name>` payload is the row's `Nome`. -/
theorem extractName_build (row : Row) :
    extractName (build_material_block row) = some row.Nome := by
  unfold build_material_block identity_section extractName
  simp [List.findSome?_cons]

/-- Sample isotropic row: the round-trip example of the spec
(Density 7850, E_x 2.1e11 = 210000000000, Poisson_xy 0.3). -/
def isoRow : Row where
  Nome := "Steel"
  Descricao := "Structural steel"
  Tipo := "Isotropic"
  Densidade := Cell.num 7850
  E_x := Cell.num 210000000000
  E_y := Cell.num 0
  E_z := Cell.num 0
  Poisson_xy := Cell.num (3 / 10)
  Poisson_yz := Cell.num 0
  Poisson_xz := Cell.num 0
  G_xy := Cell.num 0
  G_yz := Cell.num 0
  G_xz := Cell.num 0

/-- Same as `isoRow` on every field the isotropic branch reads, but
with different values in the seven unused numeric columns. -/
def isoRow2 : Row where
  Nome := "Steel"
  Descricao := "Structural steel"
  Tipo := "Isotropic"
  Densidade := Cell.num 7850
  E_x := Cell.num 210000000000
  E_y := Cell.num 999
  E_z := Cell.str "not a number"
  Poisson_xy := Cell.num (3 / 10)
  Poisson_yz := Cell.num 42
  Poisson_xz := Cell.na
  G_xy := Cell.str "1,5e+02"
  G_yz := Cell.num 7
  G_xz := Cell.num 8

/-- Sample orthotropic row with Brazilian-locale numeric text cells. -/
def orthoRow : Row where
  Nome := "Alu"
  Descricao := "Aluminium alloy"
  Tipo := "Orthotropic"
  Densidade := Cell.str "2,7e+03"
  E_x := Cell.str "7,0e+10"
  E_y := Cell.str "7,1e+10"
  E_z := Cell.str "7,2e+10"
  Poisson_xy := Cell.str "0,33"
  Poisson_yz := Cell.str "0,34"
  Poisson_xz := Cell.str "0,35"
  G_xy := Cell.str "2,6e+10"
  G_yz := Cell.str "2,5e+10"
  G_xz := Cell.str "2,4e+10"

/-- Sample row with an unrecognized `Tipo`, which the converter treats
like the orthotropic case. -/
def weirdRow : Row where
  Nome := "Mystery"
  Descricao := "Unrecognized type"
  Tipo := "  composite  "
  Densidade := Cell.num 1000
  E_x := Cell.num 1
  E_y := Cell.num 2
  E_z := Cell.num 3
  Poisson_xy := Cell.num 4
  Poisson_yz := Cell.num 5
  Poisson_xz := Cell.num 6
  G_xy := Cell.num 7
  G_yz := Cell.num 8
  G_xz := Cell.num 9

/-! ### Claim theorems -/

/-- C2: `clean_numeric` is total — every cell yields a float result —
and the empty string, a missing/NaN cell, and any text whose cleaned
form fails to parse as a float all return exactly `0.0`. -/
theorem clean_numeric_total :
    (∀ v : Cell, ∃ x : PyFloat, clean_numeric v = x)
    ∧ clean_numeric (Cell.str "") = PyFloat.finite 0
    ∧ clean_numeric Cell.na = PyFloat.finite 0
    ∧ (∀ s : String, pyFloatOfChars (trimChars (pyCleanChars s.data)) = none →
        clean_numeric (Cell.str s) = PyFloat.finite 0) := by
  refine ⟨fun v => ⟨clean_numeric v, rfl⟩, rfl, rfl, fun s h => ?_⟩
  by_cases hs : s = ""
  · subst hs; rfl
  · simp [clean_numeric, hs, h]

/-- Witness for C2 at the unparseable text `"abc"`. -/
theorem clean_numeric_total_witness :
    clean_numeric (Cell.str "abc") = PyFloat.finite 0 :=
  clean_numeric_total.2.2.2 "abc" (by decide)

/-- C7: on every text of the form `<digits>,<digits>e<sign><digits>`,
`clean_numeric` returns exactly the float parsed from the
comma-to-point form; `"7,85e+03"` gives `7850.0`; and a numeric input
passes through unchanged. -/
theorem clean_numeric_comma_sci (A B C : List Char) (sg : Char)
    (hA : ∀ c ∈ A, c.isDigit = true) (hB : ∀ c ∈ B, c.isDigit = true)
    (hC : ∀ c ∈ C, c.isDigit = true)
    (hAne : A ≠ []) (hBne : B ≠ []) (hCne : C ≠ [])
    (hsg : sg = '+' ∨ sg = '-') :
    (∃ q : ℚ,
      pyFloatOfChars (A ++ '.' :: (B ++ 'e' :: sg :: C)) = some (PyFloat.finite q)
      ∧ clean_numeric (Cell.str (String.mk (A ++ ',' :: (B ++ 'e' :: sg :: C))))
          = PyFloat.finite q)
    ∧ clean_numeric (Cell.str "7,85e+03") = PyFloat.finite 7850
    ∧ (∀ q : ℚ, clean_numeric (Cell.num q) = PyFloat.finite q) := by
  refine ⟨?_, ?_, fun q => rfl⟩
  · obtain ⟨a, A', rfl⟩ : ∃ a A', A = a :: A' := by
      cases A with
      | nil => exact absurd rfl hAne
      | cons a t => exact ⟨a, t, rfl⟩
    have hsgw : sg.isWhitespace = false := by
      rcases hsg with h | h <;> (subst h; decide)
    have hws : ∀ x ∈ (a :: A') ++ '.' :: (B ++ 'e' :: sg :: C),
        x.isWhitespace = false := by
      intro x hx
      simp only [List.mem_append, List.mem_cons] at hx
      rcases hx with h | h | h | h | h | h
      · exact isDigit_not_ws (hA x (by simpa using h))
      · subst h; decide
      · exact isDigit_not_ws (hB x h)
      · subst h; decide
      · subst h; exact hsgw
      · exact isDigit_not_ws (hC x h)
    obtain ⟨qv, hq⟩ : ∃ qv : ℚ,
        parseUnsigned ((a :: A') ++ '.' :: (B ++ 'e' :: sg :: C)) = some qv :=
      ⟨_, parseUnsigned_pattern hA hB hC hAne hBne hCne hsg⟩
    have hpf : pyFloatOfChars ((a :: A') ++ '.' :: (B ++ 'e' :: sg :: C))
        = some (PyFloat.finite qv) := by
      have hstep : pyFloatOfChars ((a :: A') ++ '.' :: (B ++ 'e' :: sg :: C))
          = parseAfterSign false ((a :: A') ++ '.' :: (B ++ 'e' :: sg :: C)) :=
        pyFloatOfChars_digit_head (hA a (by simp)) hws
      rw [hstep]
      simp only [List.cons_append] at hq
      simp [parseAfterSign, hq]
    have hnem : String.mk ((a :: A') ++ ',' :: (B ++ 'e' :: sg :: C)) ≠ "" := by
      intro h
      have h2 := congrArg String.data h
      simp at h2
    have hclean : clean_numeric
          (Cell.str (String.mk ((a :: A') ++ ',' :: (B ++ 'e' :: sg :: C))))
        = PyFloat.finite qv := by
      simp only [clean_numeric, hnem, if_false]
      rw [cleanChars_pattern hA hB hC hsg, hpf]
    exact ⟨qv, hpf, hclean⟩
  · have h : clean_numeric (Cell.str "7,85e+03")
        = PyFloat.finite ((7 + 85 / (10 : ℚ) ^ 2) * (10 : ℚ) ^ (3 : ℤ)) := rfl
    have hv : ((7 + 85 / (10 : ℚ) ^ 2) * (10 : ℚ) ^ (3 : ℤ)) = 7850 := by norm_num
    rw [h, hv]

/-- Witness for C7 at `"7,85e+03"` (digits `7`; `85`; sign `+`; `03`). -/
theorem clean_numeric_comma_sci_witness :
    clean_numeric (Cell.str "7,85e+03") = PyFloat.finite 7850 :=
  (clean_numeric_comma_sci ['7'] ['8', '5'] ['0', '3'] '+'
    (by decide) (by decide) (by decide)
    (by decide) (by decide) (by decide) (Or.inl rfl)).2.1

/-- C8: the four known version labels map to their technical strings,
any other label falls back to `"25.2.0.233"`, and the header places
the resolved string in the root element's `version` attribute. -/
theorem version_resolution :
    resolve_version "2024 R1" = "24.1.0.0"
    ∧ resolve_version "2024 R2" = "24.2.0.0"
    ∧ resolve_version "2025 R1" = "25.1.0.0"
    ∧ resolve_version "2025 R2" = "25.2.0.233"
    ∧ (∀ l : String, l ≠ "2024 R1" → l ≠ "2024 R2" → l ≠ "2025 R1" → l ≠ "2025 R2" →
        resolve_version l = "25.2.0.233")
    ∧ (∀ l now : String,
        _get_xml_header l now
          = "<?xml version=\"1.0\" encoding=\"UTF-8\"?>\n"
            ++ ("<EngineeringData version=\"" ++ resolve_version l
                ++ "\" versiondate=\"" ++ now ++ "\">\n")
            ++ ("  <Notes>Gerado via Streamlit - Versão Ansys " ++ l
                ++ " - Suporta Ortotropia</Notes>\n")
            ++ "  <Materials>\n    <MatML_Doc>\n") := by
  refine ⟨rfl, rfl, rfl, rfl, fun l h1 h2 h3 h4 => ?_, fun l now => rfl⟩
  have b1 : (l == "2024 R1") = false := beq_eq_false_iff_ne.mpr h1
  have b2 : (l == "2024 R2") = false := beq_eq_false_iff_ne.mpr h2
  have b3 : (l == "2025 R1") = false := beq_eq_false_iff_ne.mpr h3
  have b4 : (l == "2025 R2") = false := beq_eq_false_iff_ne.mpr h4
  simp [resolve_version, version_map, List.lookup, b1, b2, b3, b4]

/-- Witness for C8 at the unknown label `"banana"`. -/
theorem version_resolution_witness :
    resolve_version "banana" = "25.2.0.233" :=
  version_resolution.2.2.2.2.1 "banana" (by decide) (by decide) (by decide) (by decide)

/-- `renderBlock` on a cons. -/
theorem renderBlock_cons (f : Frag) (fs : List Frag) :
    renderBlock (f :: fs) = render f ++ renderBlock fs := by
  unfold renderBlock
  rw [List.map_cons, join_cons]

/-- C1 counterexample: at the empty dataset the document is exactly
header ++ footer, and the footer's catalog has 13 `<ParameterDetails>`
entries, not 23 — `pa4` (like all of pa4–pa13) is absent. -/
theorem footer_metadata_counterexample :
    convert [] "2025 R2" "01/01/2025 12:00:00"
      = _get_xml_header "2025 R2" "01/01/2025 12:00:00" ++ _get_xml_footer
    ∧ footer_param_details.length = 13
    ∧ ¬ footer_param_details.length = 23
    ∧ ¬ "pa4" ∈ footer_param_details.map ParamDetail.id :=
  ⟨rfl, by decide, by decide, by decide⟩

/-- C1 amended: every generated document's metadata catalog lists, in
fixed order, exactly the 13 parameters pa0–pa3 and pa14–pa22 plus the
2 property descriptors (Density, Elasticity), independently of the
dataset: the footer is a constant suffix of every document. -/
theorem metadata_catalog_entries :
    footer_param_details.map ParamDetail.id
      = ["pa0", "pa1", "pa2", "pa3", "pa14", "pa15", "pa16", "pa17", "pa18",
         "pa19", "pa20", "pa21", "pa22"]
    ∧ footer_param_details.length = 13
    ∧ footer_property_details = [("pr0", "Density"), ("pr1", "Elasticity")]
    ∧ (∀ (df : List Row) (ver now : String), ∃ body : String,
        convert df ver now = _get_xml_header ver now ++ body ++ _get_xml_footer) :=
  ⟨by decide, by decide, rfl, fun df ver now => ⟨_, convert_eq_join df ver now⟩⟩

/-- C3: when the normalized type is not "Isotropic" the elasticity
values are exactly the nine `ortho_params` entries in mapping order,
normalized and dependent-tagged, with no pa2/pa3 entries anywhere in
the block. -/
theorem ortho_block_nine_params (row : Row)
    (h : pyCapitalize (pyStrip row.Tipo) ≠ "Isotropic") :
    paramFloats (elasticity_section (pyCapitalize (pyStrip row.Tipo)) row)
      = ortho_params.map (fun p => (p.1, clean_numeric (getCol row p.2), dependent_qual))
    ∧ (paramFloats (elasticity_section (pyCapitalize (pyStrip row.Tipo)) row)).length = 9
    ∧ paramFloats (build_material_block row)
      = ("pa1", clean_numeric row.Densidade, dependent_qual)
        :: ortho_params.map (fun p => (p.1, clean_numeric (getCol row p.2), dependent_qual))
    ∧ countParam "pa2" (build_material_block row) = 0
    ∧ countParam "pa3" (build_material_block row) = 0 := by
  have h1 : paramFloats (elasticity_section (pyCapitalize (pyStrip row.Tipo)) row)
      = ortho_params.map (fun p => (p.1, clean_numeric (getCol row p.2), dependent_qual)) := by
    unfold elasticity_section paramFloats
    simp [h, ortho_params, List.filterMap_append, List.filterMap_cons]
  have h2 := paramFloats_build row
  rw [if_neg h] at h2
  have hcount : ∀ i : String,
      countParam i (build_material_block row)
        = (("pa1", clean_numeric row.Densidade, dependent_qual)
            :: ortho_params.map
              (fun p => (p.1, clean_numeric (getCol row p.2), dependent_qual))).countP
            (fun e => e.1 == i) := by
    intro i
    unfold countParam
    rw [h2]
  refine ⟨h1, ?_, h2, ?_, ?_⟩
  · rw [h1]; rfl
  · rw [hcount "pa2"]; rfl
  · rw [hcount "pa3"]; rfl

/-- Witness for C3 at an orthotropic row and at a row with an
unrecognized type, treated identically. -/
theorem ortho_block_nine_params_witness :
    paramFloats (build_material_block orthoRow)
      = ("pa1", clean_numeric orthoRow.Densidade, dependent_qual)
        :: ortho_params.map (fun p => (p.1, clean_numeric (getCol orthoRow p.2), dependent_qual))
    ∧ countParam "pa2" (build_material_block weirdRow) = 0 :=
  ⟨(ortho_block_nine_params orthoRow (by decide)).2.2.1,
   (ortho_block_nine_params weirdRow (by decide)).2.2.2.1⟩

/-- C4: when the normalized type is "Isotropic" the elasticity block is
the derive qualifier followed by exactly E_x as pa2 and Poisson_xy as
pa3 (normalized, dependent-tagged), no pa14–pa22 entries appear, and a
one-row dataset yields a document with exactly that one material
block between header and footer. -/
theorem iso_block_two_params (row : Row)
    (h : pyCapitalize (pyStrip row.Tipo) = "Isotropic") :
    elasticity_section (pyCapitalize (pyStrip row.Tipo)) row
      = [Frag.lit "          <PropertyData property=\"pr1\">\n",
         Frag.lit "            <Data format=\"string\">-</Data>\n",
         Frag.qual "Behavior" "Isotropic",
         Frag.paramS "pa0" "Interpolation Options" none,
         Frag.qual "Derive from" "Young\x27s Modulus and Poisson\x27s Ratio",
         Frag.paramF "pa2" (clean_numeric row.E_x) dependent_qual,
         Frag.paramF "pa3" (clean_numeric row.Poisson_xy) dependent_qual]
    ∧ paramFloats (build_material_block row)
      = [("pa1", clean_numeric row.Densidade, dependent_qual),
         ("pa2", clean_numeric row.E_x, dependent_qual),
         ("pa3", clean_numeric row.Poisson_xy, dependent_qual)]
    ∧ (∀ i ∈ ortho_params.map Prod.fst, countParam i (build_material_block row) = 0)
    ∧ (∀ ver now : String,
        convert [row] ver now
          = _get_xml_header ver now ++ renderBlock (build_material_block row)
            ++ _get_xml_footer) := by
  have h2 := paramFloats_build row
  rw [if_pos h] at h2
  refine ⟨?_, h2, ?_, ?_⟩
  · simp [elasticity_section, h]
  · intro i hi
    have hc : countParam i (build_material_block row)
        = ([("pa1", clean_numeric row.Densidade, dependent_qual),
            ("pa2", clean_numeric row.E_x, dependent_qual),
            ("pa3", clean_numeric row.Poisson_xy, dependent_qual)]).countP
            (fun e => e.1 == i) := by
      unfold countParam
      rw [h2]
    simp only [ortho_params, List.map_cons, List.map_nil, List.mem_cons] at hi
    rcases hi with rfl | rfl | rfl | rfl | rfl | rfl | rfl | rfl | rfl | hi
    · rw [hc]; rfl
    · rw [hc]; rfl
    · rw [hc]; rfl
    · rw [hc]; rfl
    · rw [hc]; rfl
    · rw [hc]; rfl
    · rw [hc]; rfl
    · rw [hc]; rfl
    · rw [hc]; rfl
    · simp at hi
  · intro ver now
    rw [convert_eq_join]
    rw [show String.join ([row].map (fun r => renderBlock (build_material_block r)))
        = renderBlock (build_material_block row) from by
      rw [List.map_cons, List.map_nil, join_cons]
      exact String.append_empty _]

/-- Witness for C4 at the spec's round-trip example row. -/
theorem iso_block_two_params_witness :
    paramFloats (build_material_block isoRow)
      = [("pa1", PyFloat.finite 7850, dependent_qual),
         ("pa2", PyFloat.finite 210000000000, dependent_qual),
         ("pa3", PyFloat.finite (3 / 10), dependent_qual)] := by
  have h := (iso_block_two_params isoRow (by decide)).2.1
  simpa [isoRow] using h

/-- C5: the assembled document equals header, then one block per row
in input order (no sorting or deduplication), then footer, and the Nth
block's Name is the Nth input row's Name. -/
theorem convert_preserves_row_order (df : List Row) (ver now : String) :
    convert df ver now
      = _get_xml_header ver now
        ++ String.join (df.map (fun r => renderBlock (build_material_block r)))
        ++ _get_xml_footer
    ∧ ∀ (n : ℕ) (h : n < df.length),
        extractName (build_material_block (df.get ⟨n, h⟩)) = some (df.get ⟨n, h⟩).Nome :=
  ⟨convert_eq_join df ver now, fun n h => extractName_build (df.get ⟨n, h⟩)⟩

/-- Witness for C5: in a two-row dataset the second block's Name is the
second row's Name. -/
theorem convert_preserves_row_order_witness :
    extractName (build_material_block orthoRow) = some "Alu" :=
  (convert_preserves_row_order [isoRow, orthoRow] "2025 R2" "01/01/2025 12:00:00").2
    1 (by decide)

/-- C6 counterexample: the density-block marker parameter pa0 carries
an `AlgorithmType` qualifier, not a dependent-variable tag. -/
theorem density_marker_not_dependent :
    (paramQuals (build_material_block orthoRow)).head?
      = some ("pa0", some ("AlgorithmType", "Linear Multivariate (Qhull)"))
    ∧ ¬ (paramQuals (build_material_block orthoRow)).head?
        = some ("pa0", some dependent_qual) :=
  ⟨by decide, by decide⟩

/-- C6 amended: for every row the density property block is the fixed
interpolation-options marker (pa0, with the `AlgorithmType` qualifier
`Linear Multivariate (Qhull)`) followed by the normalized density
value (pa1) tagged as a dependent variable. -/
theorem density_block_structure (row : Row) :
    (paramQuals (build_material_block row)).take 2
      = [("pa0", some ("AlgorithmType", "Linear Multivariate (Qhull)")),
         ("pa1", some dependent_qual)]
    ∧ (paramFloats (build_material_block row)).head?
      = some ("pa1", clean_numeric row.Densidade, dependent_qual)
    ∧ build_material_block row
      = identity_section row.Nome row.Descricao
        ++ density_section (clean_numeric row.Densidade)
        ++ elasticity_section (pyCapitalize (pyStrip row.Tipo)) row
        ++ [closing_lit] := by
  refine ⟨paramQuals_build_take row, ?_, rfl⟩
  rw [show (paramFloats (build_material_block row)).head?
      = (("pa1", clean_numeric row.Densidade, dependent_qual)
          :: (if pyCapitalize (pyStrip row.Tipo) = "Isotropic" then
                [("pa2", clean_numeric row.E_x, dependent_qual),
                 ("pa3", clean_numeric row.Poisson_xy, dependent_qual)]
              else ortho_params.map
                (fun p => (p.1, clean_numeric (getCol row p.2), dependent_qual)))).head?
    from by rw [paramFloats_build row]]
  rfl

/-- C9: Name and Description are inserted verbatim — the rendered block
is a concatenation in which the exact input strings appear unchanged,
with no XML escaping. -/
theorem name_description_verbatim (row : Row) :
    ∃ p1 p2 p3 : String,
      renderBlock (build_material_block row)
        = p1 ++ row.Nome ++ p2 ++ row.Descricao ++ p3 := by
  refine ⟨"      <Material>\n        <BulkDetails>\n" ++ "          <Name>",
    "</Name>\n" ++ "          <Description>",
    "</Description>\n"
      ++ renderBlock ([Frag.lit "          <Class><Name>Composite</Name></Class>\n"]
        ++ (density_section (clean_numeric row.Densidade)
          ++ (elasticity_section (pyCapitalize (pyStrip row.Tipo)) row
            ++ [closing_lit]))), ?_⟩
  simp only [build_material_block, identity_section, List.cons_append, List.nil_append,
    List.append_assoc, renderBlock_cons, render, String.append_assoc]

/-- C10: for an isotropic row the block does not depend on the seven
unused numeric fields — two rows agreeing on Name, Description, Type,
Density, E_x and Poisson_xy produce identical blocks. -/
theorem iso_block_unused_fields (r1 r2 : Row)
    (hiso : pyCapitalize (pyStrip r1.Tipo) = "Isotropic")
    (h1 : r1.Nome = r2.Nome) (h2 : r1.Descricao = r2.Descricao)
    (h3 : r1.Tipo = r2.Tipo) (h4 : r1.Densidade = r2.Densidade)
    (h5 : r1.E_x = r2.E_x) (h6 : r1.Poisson_xy = r2.Poisson_xy) :
    build_material_block r1 = build_material_block r2
    ∧ renderBlock (build_material_block r1) = renderBlock (build_material_block r2) := by
  have hiso2 : pyCapitalize (pyStrip r2.Tipo) = "Isotropic" := by
    rw [← h3]; exact hiso
  have hb : build_material_block r1 = build_material_block r2 := by
    unfold build_material_block identity_section density_section elasticity_section
    rw [h1, h2, h3, h4]
    simp [hiso2, h5, h6]
  exact ⟨hb, by rw [hb]⟩

/-- Witness for C10: `isoRow` and `isoRow2` differ in all seven unused
fields yet produce the same block. -/
theorem iso_block_unused_fields_witness :
    build_material_block isoRow = build_material_block isoRow2 :=
  (iso_block_unused_fields isoRow isoRow2 (by decide) rfl rfl rfl rfl rfl rfl).1
